import Mathlib

/-!
Verification of the LeadGen lead-harvesting pipeline.

The repository ships the React/TypeScript dashboard (frontend/src, the
unnamed component files) together with design documentation for the Python
backend.  The frontend data model and helpers below are embedded directly
from the TypeScript source; the backend pipeline components (Collector,
Normalizer, Scorer, Orchestrator) are not part of the shipped sources, so
they are modelled from the specification where a claim needs them (each such
definition is marked `Modelled from the spec:`).
-/

namespace LeadGen

/-! ## Frontend data model, from src/frontend/src/api/client.ts -/

/-- The `Run` interface of client.ts (lines 3-19).  Optional (`?`) fields
become `Option`; `number` counters are integers as delivered by the API. -/
structure Run where
  id : String
  status : String
  location : String
  category : String
  require_approval : Bool
  dry_run : Bool
  total_leads : Int
  total_emails : Option Int
  total_websites : Option Int
  selected_providers : Option (List String)
  provider_limits : Option (List (String × Int))
  error_message : Option String
  created_at : String
  updated_at : String
  completed_at : Option String
deriving DecidableEq

/-- The field names of the `Run` interface of client.ts, in declaration
order; these are the JSON keys of a run record on the wire. -/
def runFieldNames : List String :=
  ["id", "status", "location", "category", "require_approval", "dry_run",
   "total_leads", "total_emails", "total_websites", "selected_providers",
   "provider_limits", "error_message", "created_at", "updated_at",
   "completed_at"]

/-- The `Provider` interface of client.ts (lines 52-66). -/
structure Provider where
  id : String
  name : String
  description : String
  enabled : Bool
  requires_api_key : Bool
  free_tier : Bool
  daily_limit : String
  quota_limit : Int
  quota_used : Int
  quota_period : String
  quota_available : Int
  query_limit : Int
  statistics_url : Option String
deriving DecidableEq

/-- The `CreateRunRequest` interface of client.ts (lines 68-75). -/
structure CreateRunRequest where
  location : String
  category : String
  require_approval : Bool
  dry_run : Bool
  providers : Option (List String)
  provider_limits : Option (List (String × Int))
deriving DecidableEq

/-- JSON keys produced by `JSON.stringify` on a `CreateRunRequest` object:
the four required fields always appear; an optional field appears exactly
when it is not `undefined` (stringify drops `undefined` members). -/
def createRunRequestKeys (r : CreateRunRequest) : List String :=
  ["location", "category", "require_approval", "dry_run"]
    ++ (if r.providers.isSome then ["providers"] else [])
    ++ (if r.provider_limits.isSome then ["provider_limits"] else [])

/-- The six field names admitted by the `CreateRunRequest` interface. -/
def createRunRequestAllowedKeys : List String :=
  ["location", "category", "require_approval", "dry_run", "providers",
   "provider_limits"]

/-- An HTTP response as the client observes it: the `ok` flag and the
parsed JSON body. -/
structure ApiResponse (α : Type) where
  ok : Bool
  body : α

/-- `api.createRun` of client.ts (lines 89-97): POSTs the request and, on a
non-ok response, throws "Failed to create run"; otherwise returns the
response body parsed as a `Run`. -/
def createRun (_data : CreateRunRequest) (response : ApiResponse Run) :
    Except String Run :=
  if response.ok then Except.ok response.body
  else Except.error "Failed to create run"

/-- `handleSubmit` of the RunForm component (src/unnamed/part_003 lines
80-90): builds the request from the form state; `providers` is sent only
when at least one provider is selected, `provider_limits` always. -/
def handleSubmitRequest (location category : String)
    (requireApproval dryRun : Bool) (selectedProviders : List String)
    (providerLimits : List (String × Int)) : CreateRunRequest :=
  { location := location
    category := category
    require_approval := requireApproval
    dry_run := dryRun
    providers :=
      if selectedProviders.length > 0 then some selectedProviders else none
    provider_limits := some providerLimits }

/-- JavaScript `Math.round` on an exact rational: round half towards
positive infinity, i.e. `⌊x + 1/2⌋`. -/
def jsRound (x : ℚ) : Int := Int.floor (x + 1 / 2)

/-- Division guarded against a zero divisor: `none` exactly when the
divisor is zero. -/
def safeDiv (a b : ℚ) : Option ℚ := if b = 0 then none else some (a / b)

/-- `getQuotaPercentage` of the RunForm component (src/unnamed/part_003
lines 105-108): `quota_limit === 0` is answered `0` (unlimited) before any
division; otherwise `Math.round(quota_used / quota_limit * 100)`.  The
division is routed through `safeDiv` so that reaching it with a zero
divisor would surface as `none`. -/
def getQuotaPercentage (p : Provider) : Option Int :=
  if p.quota_limit = 0 then some 0
  else
    (safeDiv (p.quota_used : ℚ) (p.quota_limit : ℚ)).map
      (fun q => jsRound (q * 100))

/-- The `classMap` of `getStatusBadge` (src/unnamed/part_005 lines 99-111,
src/unnamed/part_004 lines 252-264, RunsList.tsx lines 49-61). -/
def statusClassMap : List (String × String) :=
  [("queued", "badge-info"), ("running", "badge-warning"),
   ("completed", "badge-success"), ("failed", "badge-error")]

/-- Badge class chosen by `getStatusBadge`: the mapped class, falling back
to "badge-info" for an unknown status string. -/
def getStatusBadgeClass (status : String) : String :=
  (statusClassMap.lookup status).getD "badge-info"

/-- The `disabled` condition of the "View Leads" action in every RunsList
variant (RunsList.tsx line 106, src/unnamed/part_004 line 309,
src/unnamed/part_005 line 197): `run.status !== "completed"`. -/
def viewLeadsDisabled (run : Run) : Bool :=
  run.status != "completed"

/-! ## Backend pipeline, modelled from the spec

The backend (Collector, Normalizer, Scorer, RunOrchestrator) is not among
the shipped sources; the definitions of this section are modelled from the
specification's component design (§3-§4.6). -/

/-- Modelled from the spec: the run status enum of §4.6 — the backend
orchestrator source is missing.  Exactly four values. -/
inductive Status where
  | queued
  | running
  | completed
  | failed
deriving DecidableEq

/-- Modelled from the spec: the events driving the §4.6 run state machine
(begin stage execution, all stages finished, fatal error, external
cancellation) — the backend orchestrator source is missing. -/
inductive RunEvent where
  | start
  | finish
  | fatal
  | cancel
deriving DecidableEq

/-- Modelled from the spec: the §4.6 transition rules — the backend
orchestrator source is missing.  `queued → running` on start,
`running → completed` on finish, `running → failed` on a fatal error or on
cancellation; every other pair is rejected. -/
def transition : Status → RunEvent → Option Status
  | .queued, .start => some .running
  | .running, .finish => some .completed
  | .running, .fatal => some .failed
  | .running, .cancel => some .failed
  | _, _ => none

/-- Modelled from the spec: the `ProviderError` taxonomy of §4.1/§7 — the
backend provider layer source is missing. -/
inductive ProviderErrorKind where
  | transient
  | quota_exceeded
  | invalid_response
deriving DecidableEq

/-- Modelled from the spec: a `RawLead` (§3) as returned by one provider —
the backend data model source is missing.  Coordinates are optional exact
rationals. -/
structure RawLead where
  name : String
  address : String
  coords : Option (ℚ × ℚ)
  website : Option String
  phone : Option String
  email : Option String
  provider : String
  provider_record_id : String
deriving DecidableEq

/-- Whether one provider's search call succeeded. -/
def searchSucceeded : Except ProviderErrorKind (List RawLead) → Bool
  | .ok _ => true
  | .error _ => false

/-- The raw leads of the succeeding providers, in provider order, each
provider's own order preserved. -/
def successfulLeads
    (results : List (Except ProviderErrorKind (List RawLead))) :
    List RawLead :=
  (results.filterMap fun r =>
    match r with
    | .ok ls => some ls
    | .error _ => none).flatten

/-- Modelled from the spec: the LeadCollector aggregation of §4.2 — the
backend collector source is missing.  A provider failing with a
`ProviderError` is skipped; only when every provider failed does the
collector report a fatal aggregate error. -/
def collectLeads
    (results : List (Except ProviderErrorKind (List RawLead))) :
    Except String (List RawLead) :=
  if results.any searchSucceeded then Except.ok (successfulLeads results)
  else Except.error "All providers failed"

/-- Modelled from the spec: the orchestrator-owned run state of §3/§4.6 —
the backend orchestrator source is missing.  Counter and error fields of
the Run record that the pipeline mutates. -/
structure RunState where
  status : Status
  error_message : Option String := none
  total_leads : Int := 0
  total_websites : Int := 0
  total_emails : Int := 0
deriving DecidableEq

/-- Modelled from the spec: one orchestrated run over the given provider
outcomes (§4.2, §4.6) — the backend orchestrator source is missing.  The
run starts `queued`, moves to `running`, then `completed` with the
aggregated leads when the collector succeeded, or `failed` with the
collector's aggregate message when it did not. -/
def executeRun (results : List (Except ProviderErrorKind (List RawLead))) :
    RunState × List RawLead :=
  let running : RunState := { status := (transition .queued .start).getD .queued }
  match collectLeads results with
  | .ok ls =>
      ({ running with
          status := (transition running.status .finish).getD running.status
          total_leads := ls.length }, ls)
  | .error msg =>
      ({ running with
          status := (transition running.status .fatal).getD running.status
          error_message := some msg }, [])

/-- Modelled from the spec: the canonical `Lead` fields of §3 that the
Scorer and the completion counters read — the backend data model source is
missing. -/
structure Lead where
  business_name : String
  address : Option String
  website : Option String
  email : Option String
  phone : Option String
  social_links : List String
  sources : List String
deriving DecidableEq

/-- Modelled from the spec: populating the aggregate counters from the
final Lead set on `running → completed` (§4.6) — the backend orchestrator
source is missing.  Counters only change when the finish transition is
legal from the current status. -/
def completeRun (rs : RunState) (leads : List Lead) : RunState :=
  match transition rs.status .finish with
  | some s =>
      { rs with
        status := s
        total_leads := leads.length
        total_websites := (leads.filter fun l => l.website.isSome).length
        total_emails := (leads.filter fun l => l.email.isSome).length }
  | none => rs

/-! ## Normalizer / Deduplicator, modelled from the spec (§4.3)

The similarity metrics (token-based name similarity, geographic distance,
address similarity) are tunable parameters per §9; the clustering logic is
parameterised over them and the reference thresholds are fixed below. -/

/-- Reference name-similarity threshold of §4.3 (0.85). -/
def nameSimThreshold : ℚ := 85 / 100

/-- Reference geographic merge radius of §4.3, in meters (150). -/
def geoRadiusMeters : ℚ := 150

/-- Reference address-similarity threshold of §4.3 (0.80). -/
def addrSimThreshold : ℚ := 80 / 100

/-- Modelled from the spec: the §4.3 pairwise merge criterion — the
backend normalizer source is missing.  Both conditions must hold: name
similarity at least 0.85, and either (both coordinates present and)
distance at most 150 m, or, coordinates missing on either side, address
similarity at least 0.80. -/
def mergeEligible (nameSim : RawLead → RawLead → ℚ)
    (geoDist : ℚ × ℚ → ℚ × ℚ → ℚ) (addrSim : RawLead → RawLead → ℚ)
    (a b : RawLead) : Bool :=
  decide (nameSimThreshold ≤ nameSim a b) &&
    match a.coords, b.coords with
    | some ca, some cb => decide (geoDist ca cb ≤ geoRadiusMeters)
    | _, _ => decide (addrSimThreshold ≤ addrSim a b)

/-- Bounded reachability through merge-eligible pairs with intermediate
records drawn from the input list: `reachN elig l n a b` holds when a
chain of at most `n` eligible steps through members of `l` links `a`
to `b`. -/
def reachN (elig : RawLead → RawLead → Bool) (l : List RawLead) :
    Nat → RawLead → RawLead → Bool
  | 0, a, b => decide (a = b)
  | n + 1, a, b =>
      decide (a = b) ||
        l.any fun c => elig a c && reachN elig l n c b

/-- Modelled from the spec: cluster membership produced by the §4.3
union-find clustering — the backend normalizer source is missing.  Two
input records end in the same canonical Lead exactly when a chain of
pairwise merge-eligible records of the input links them; chains of length
`l.length` suffice for any connected pair. -/
def sameCluster (elig : RawLead → RawLead → Bool) (l : List RawLead)
    (a b : RawLead) : Bool :=
  decide (a ∈ l) && decide (b ∈ l) && reachN elig l l.length a b

/-! ## Scorer, modelled from the spec (§4.5)

Reference weights for the field-presence indicators and the
distinct-source bonus; the score is the weighted sum normalised by the
maximum achievable weight, hence in [0,1]. -/

/-- Reference indicator weights: address, phone, email, website, at least
one social link. -/
def wAddress : ℚ := 15
def wPhone : ℚ := 20
def wEmail : ℚ := 25
def wWebsite : ℚ := 20
def wSocial : ℚ := 10

/-- Bonus weight per distinct contributing source. -/
def sourceBonusUnit : ℚ := 5

/-- Cap of the distinct-source bonus term. -/
def sourceBonusCap : ℚ := 10

/-- Maximum achievable weight: all indicators present and the bonus at its
cap. -/
def maxWeight : ℚ :=
  wAddress + wPhone + wEmail + wWebsite + wSocial + sourceBonusCap

/-- Field-presence indicator. -/
def presence (o : Option String) : ℚ := if o.isSome then 1 else 0

/-- Modelled from the spec: the distinct-source bonus term of §4.5 — the
backend scorer source is missing.  Proportional to the number of distinct
contributing sources, capped so the score stays normalised. -/
def sourceBonus (l : Lead) : ℚ :=
  min (sourceBonusUnit * l.sources.dedup.length) sourceBonusCap

/-- Modelled from the spec: the §4.5 confidence score — the backend scorer
source is missing.  Weighted sum over field-presence indicators plus the
distinct-source bonus, normalised by the maximum achievable weight. -/
def confidenceScore (l : Lead) : ℚ :=
  (wAddress * presence l.address + wPhone * presence l.phone +
      wEmail * presence l.email + wWebsite * presence l.website +
      wSocial * (if l.social_links.isEmpty then 0 else 1) +
      sourceBonus l) / maxWeight

/-! ## Concrete sample data for witnesses and counterexamples -/

/-- A sample completed run record. -/
def sampleRun : Run :=
  { id := "run-1", status := "completed", location := "Berlin, Mitte",
    category := "restaurant", require_approval := true, dry_run := true,
    total_leads := 2, total_emails := some 1, total_websites := some 1,
    selected_providers := some ["osm"], provider_limits := some [("osm", 50)],
    error_message := none, created_at := "2024-01-01T00:00:00Z",
    updated_at := "2024-01-01T00:10:00Z",
    completed_at := some "2024-01-01T00:10:00Z" }

/-- The sample run while still running. -/
def sampleRunRunning : Run := { sampleRun with status := "running" }

/-- A provider with `quota_limit = 0`, i.e. unlimited. -/
def sampleProviderUnlimited : Provider :=
  { id := "osm", name := "OpenStreetMap", description := "OSM Overpass",
    enabled := true, requires_api_key := false, free_tier := true,
    daily_limit := "unlimited", quota_limit := 0, quota_used := 3,
    quota_period := "day", quota_available := 1, query_limit := 50,
    statistics_url := none }

/-- A sample run-creation request. -/
def sampleReq : CreateRunRequest :=
  { location := "Berlin, Mitte", category := "restaurant",
    require_approval := true, dry_run := true, providers := some ["osm"],
    provider_limits := some [("osm", 50)] }

/-- An ok response carrying the sample run. -/
def sampleOkResponse : ApiResponse Run := { ok := true, body := sampleRun }

/-- A sample raw lead without coordinates. -/
def sampleRaw : RawLead :=
  { name := "Cafe Mitte", address := "Alpha St 1", coords := none,
    website := some "https://cafemitte.example", phone := none,
    email := none, provider := "osm", provider_record_id := "osm-1" }

/-- A sample canonical lead. -/
def sampleLead : Lead :=
  { business_name := "Cafe Mitte", address := some "Alpha St 1",
    website := some "https://cafemitte.example", email := none,
    phone := some "+49 30 1234567", social_links := [],
    sources := ["osm"] }

/-- Raw lead "A" of the clustering chain example (no coordinates). -/
def rawA : RawLead :=
  { name := "A", address := "Same St 1", coords := none, website := none,
    phone := none, email := none, provider := "osm",
    provider_record_id := "a" }

/-- Raw lead "B" of the clustering chain example (no coordinates). -/
def rawB : RawLead := { rawA with name := "B", provider_record_id := "b" }

/-- Raw lead "C" of the clustering chain example (no coordinates). -/
def rawC : RawLead := { rawA with name := "C", provider_record_id := "c" }

/-- A name-similarity table making A~B and B~C near-duplicates (0.9) while
A and C stay dissimilar (0.5). -/
def chainNameSim (a b : RawLead) : ℚ :=
  if a.name = b.name then 1
  else if (a.name = "A" ∧ b.name = "B") ∨ (a.name = "B" ∧ b.name = "A") ∨
      (a.name = "B" ∧ b.name = "C") ∨ (a.name = "C" ∧ b.name = "B") then
    9 / 10
  else 1 / 2

/-- Constant similarity metric. -/
def constSim (q : ℚ) : RawLead → RawLead → ℚ := fun _ _ => q

/-- Constant distance metric (meters). -/
def constDist (d : ℚ) : ℚ × ℚ → ℚ × ℚ → ℚ := fun _ _ => d

/-- Eligibility for the chain example: chain name similarities, distance
irrelevant (no coordinates), address similarity 1. -/
def chainElig : RawLead → RawLead → Bool :=
  mergeEligible chainNameSim (constDist 0) (constSim 1)

/-- Raw lead with coordinates, for the threshold-boundary instances. -/
def rawP : RawLead := { rawA with coords := some (0, 0) }

/-- Second raw lead with coordinates. -/
def rawQ : RawLead :=
  { rawA with name := "A2", coords := some (0, 0), provider_record_id := "p2" }

/-! ## Theorems -/

/-- C5: a run status is one of exactly the four values queued, running,
completed, failed; `queued` is initial with `queued → running` its only
move, `completed` and `failed` are terminal, and every transition the
machine accepts is `queued → running`, `running → completed`, or
`running → failed` (cancellation included); the frontend badge map lists
exactly these four statuses. -/
theorem c5_status_state_machine :
    (∀ s : Status,
      s = .queued ∨ s = .running ∨ s = .completed ∨ s = .failed) ∧
    (∀ (s t : Status) (e : RunEvent), transition s e = some t →
      (s = .queued ∧ t = .running) ∨
        (s = .running ∧ (t = .completed ∨ t = .failed))) ∧
    (∀ e, transition .completed e = none) ∧
    (∀ e, transition .failed e = none) ∧
    transition .queued .start = some .running ∧
    transition .running .finish = some .completed ∧
    transition .running .fatal = some .failed ∧
    transition .running .cancel = some .failed ∧
    statusClassMap.map Prod.fst =
      ["queued", "running", "completed", "failed"] := by
  refine ⟨?_, ?_, ?_, ?_, rfl, rfl, rfl, rfl, rfl⟩
  · intro s; cases s <;> simp
  · intro s t e h; cases s <;> cases e <;> simp_all [transition]
  · intro e; cases e <;> rfl
  · intro e; cases e <;> rfl

/-- C5 witness: the accepted transition `transition queued start = running`
is among the allowed pairs. -/
theorem c5_status_state_machine_witness :
    (Status.queued = .queued ∧ Status.running = .running) ∨
      (Status.queued = .running ∧
        (Status.running = .completed ∨ Status.running = .failed)) :=
  c5_status_state_machine.2.1 .queued .running .start rfl

/-- C9: the quota-percentage computation of the run form is total: with
`quota_limit = 0` it answers 0 without dividing, and otherwise it answers
`Math.round(quota_used / quota_limit * 100)`; the guarded division never
sees a zero divisor. -/
theorem c9_quota_percentage_total :
    ∀ p : Provider,
      (getQuotaPercentage p).isSome = true ∧
      (p.quota_limit = 0 → getQuotaPercentage p = some 0) ∧
      (p.quota_limit ≠ 0 →
        getQuotaPercentage p =
          some (jsRound ((p.quota_used : ℚ) / (p.quota_limit : ℚ) * 100))) := by
  intro p
  by_cases h : p.quota_limit = 0
  · refine ⟨?_, fun _ => ?_, fun hne => absurd h hne⟩ <;>
      simp [getQuotaPercentage, h]
  · have hq : (p.quota_limit : ℚ) ≠ 0 := Int.cast_ne_zero.mpr h
    refine ⟨?_, fun h0 => absurd h0 h, fun _ => ?_⟩ <;>
      simp [getQuotaPercentage, h, safeDiv, hq]

/-- C9 witness: the sample unlimited provider (quota_limit 0, quota_used 3)
gets quota percentage 0 and the computation succeeds. -/
theorem c9_quota_percentage_total_witness :
    (getQuotaPercentage sampleProviderUnlimited).isSome = true ∧
      getQuotaPercentage sampleProviderUnlimited = some 0 :=
  ⟨(c9_quota_percentage_total sampleProviderUnlimited).1,
    (c9_quota_percentage_total sampleProviderUnlimited).2.1 rfl⟩

/-- C10: in every runs list, the "View Leads" action is disabled exactly
while the run status differs from "completed"; in particular it is
disabled for queued, running and failed runs. -/
theorem c10_view_leads_only_when_completed :
    ∀ run : Run,
      ((run.status = "queued" ∨ run.status = "running" ∨
          run.status = "failed") → viewLeadsDisabled run = true) ∧
      (viewLeadsDisabled run = false ↔ run.status = "completed") := by
  intro run
  constructor
  · rintro (h | h | h) <;> simp [viewLeadsDisabled, h]
  · simp [viewLeadsDisabled]

/-- C10 witness: the sample running run has its "View Leads" action
disabled. -/
theorem c10_view_leads_only_when_completed_witness :
    viewLeadsDisabled sampleRunRunning = true :=
  (c10_view_leads_only_when_completed sampleRunRunning).1
    (Or.inr (Or.inl rfl))

/-- C7: a run-creation request built by the form consists exactly of the
location, category, require_approval and dry_run values plus the optional
provider list (sent only when nonempty) and optional per-provider limit
map; on the wire only the six interface keys ever appear, the four
required ones always; a successful creation returns the parsed Run. -/
theorem c7_run_creation_contract :
    (∀ (location category : String) (ra dr : Bool)
        (sel : List String) (lims : List (String × Int)),
      (handleSubmitRequest location category ra dr sel lims).location =
          location ∧
      (handleSubmitRequest location category ra dr sel lims).category =
          category ∧
      (handleSubmitRequest location category ra dr sel lims).require_approval =
          ra ∧
      (handleSubmitRequest location category ra dr sel lims).dry_run = dr ∧
      (handleSubmitRequest location category ra dr sel lims).providers =
          (if sel.length > 0 then some sel else none) ∧
      (handleSubmitRequest location category ra dr sel lims).provider_limits =
          some lims) ∧
    (∀ r : CreateRunRequest,
      (∀ k ∈ createRunRequestKeys r, k ∈ createRunRequestAllowedKeys) ∧
      "location" ∈ createRunRequestKeys r ∧
      "category" ∈ createRunRequestKeys r ∧
      "require_approval" ∈ createRunRequestKeys r ∧
      "dry_run" ∈ createRunRequestKeys r) ∧
    (∀ (data : CreateRunRequest) (resp : ApiResponse Run),
      resp.ok = true → createRun data resp = Except.ok resp.body) := by
  refine ⟨?_, ?_, ?_⟩
  · intro location category ra dr sel lims
    exact ⟨rfl, rfl, rfl, rfl, rfl, rfl⟩
  · intro r
    refine ⟨?_, ?_, ?_, ?_, ?_⟩ <;>
      cases hp : r.providers <;> cases hl : r.provider_limits <;>
        simp [createRunRequestKeys, createRunRequestAllowedKeys, hp, hl]
  · intro data resp h
    simp [createRun, h]

/-- C7 witness: the sample request against an ok response produces the
sample run. -/
theorem c7_run_creation_contract_witness :
    createRun sampleReq sampleOkResponse = Except.ok sampleOkResponse.body :=
  c7_run_creation_contract.2.2 sampleReq sampleOkResponse rfl

/-- C1: when at least one selected provider search succeeds the run ends
`completed` with exactly the leads of the succeeding providers; when every
provider search fails the run ends `failed` with a non-empty error
message. -/
theorem c1_partial_failure_tolerance :
    ∀ results : List (Except ProviderErrorKind (List RawLead)),
      (results.any searchSucceeded = true →
        (executeRun results).1.status = .completed ∧
        (executeRun results).2 = successfulLeads results) ∧
      ((∀ r ∈ results, searchSucceeded r = false) →
        (executeRun results).1.status = .failed ∧
        ∃ msg, (executeRun results).1.error_message = some msg ∧
          msg ≠ "") := by
  intro results
  constructor
  · intro h
    simp [executeRun, collectLeads, h, transition]
  · intro h
    have hany : results.any searchSucceeded = false := by
      rw [← Bool.not_eq_true, List.any_eq_true]
      rintro ⟨r, hr, hok⟩
      rw [h r hr] at hok
      exact Bool.false_ne_true hok
    refine ⟨?_, "All providers failed", ?_, ?_⟩ <;>
      simp [executeRun, collectLeads, hany, transition]

/-- C1 witness: with one transient failure and one success the run
completes with the successful leads; with two failures it fails with a
non-empty message. -/
theorem c1_partial_failure_tolerance_witness :
    ((executeRun [Except.error .transient, Except.ok [sampleRaw]]).1.status =
        .completed ∧
      (executeRun [Except.error .transient, Except.ok [sampleRaw]]).2 =
        successfulLeads [Except.error .transient, Except.ok [sampleRaw]]) ∧
    ((executeRun [Except.error .transient,
        Except.error .quota_exceeded]).1.status = .failed ∧
      ∃ msg,
        (executeRun [Except.error .transient,
          Except.error .quota_exceeded]).1.error_message = some msg ∧
        msg ≠ "") :=
  ⟨(c1_partial_failure_tolerance
      [Except.error .transient, Except.ok [sampleRaw]]).1 rfl,
    (c1_partial_failure_tolerance
      [Except.error .transient, Except.error .quota_exceeded]).2
      (by decide)⟩

/-- C8 counterexample: the Run record of the shipped API client carries no
field named total_websites_found nor total_emails_found — the counters are
named total_websites and total_emails. -/
theorem c8_counters_counterexample :
    "total_websites_found" ∉ runFieldNames ∧
      "total_emails_found" ∉ runFieldNames := by
  constructor <;> decide

/-- C8 (amended): the Run record carries the counter total_leads and the
optional counters total_websites and total_emails (no `_found` suffix);
on the `running → completed` transition the orchestrator populates them
from the final Lead set. -/
theorem c8_run_counters :
    "total_leads" ∈ runFieldNames ∧
    "total_websites" ∈ runFieldNames ∧
    "total_emails" ∈ runFieldNames ∧
    (∀ (rs : RunState) (leads : List Lead), rs.status = .running →
      (completeRun rs leads).status = .completed ∧
      (completeRun rs leads).total_leads = leads.length ∧
      (completeRun rs leads).total_websites =
        (leads.filter fun l => l.website.isSome).length ∧
      (completeRun rs leads).total_emails =
        (leads.filter fun l => l.email.isSome).length) := by
  refine ⟨by decide, by decide, by decide, ?_⟩
  intro rs leads h
  simp [completeRun, h, transition]

/-- C8 witness: completing a running run over the one-element sample lead
set populates the counters from it. -/
theorem c8_run_counters_witness :
    (completeRun { status := .running } [sampleLead]).status = .completed ∧
    (completeRun { status := .running } [sampleLead]).total_leads =
      ([sampleLead] : List Lead).length ∧
    (completeRun { status := .running } [sampleLead]).total_websites =
      (([sampleLead] : List Lead).filter fun l => l.website.isSome).length ∧
    (completeRun { status := .running } [sampleLead]).total_emails =
      (([sampleLead] : List Lead).filter fun l => l.email.isSome).length :=
  c8_run_counters.2.2.2 { status := .running } [sampleLead] rfl

/-- Bounded eligibility-reachability only depends on which records are in
the input list, not on their order or multiplicity. -/
theorem reachN_congr (elig : RawLead → RawLead → Bool)
    {l l' : List RawLead} (hmem : ∀ x : RawLead, x ∈ l ↔ x ∈ l') :
    ∀ (n : Nat) (a b : RawLead),
      reachN elig l n a b = reachN elig l' n a b := by
  intro n
  induction n with
  | zero => intro a b; rfl
  | succ n ih =>
      intro a b
      apply Bool.eq_iff_iff.mpr
      simp only [reachN, Bool.or_eq_true, List.any_eq_true,
        Bool.and_eq_true, ih, hmem]

/-- C3: cluster membership is invariant under permutation of the input
RawLead list: permuting the input yields the same canonical clusters. -/
theorem c3_clustering_order_invariant :
    ∀ (elig : RawLead → RawLead → Bool) (l l' : List RawLead),
      l.Perm l' → ∀ a b : RawLead,
        sameCluster elig l a b = sameCluster elig l' a b := by
  intro elig l l' hperm a b
  have hmem : ∀ x : RawLead, x ∈ l ↔ x ∈ l' := fun x => hperm.mem_iff
  unfold sameCluster
  rw [hperm.length_eq, reachN_congr elig hmem l'.length a b,
    decide_eq_decide.mpr (hmem a), decide_eq_decide.mpr (hmem b)]

/-- C3 witness: swapping the two-element input leaves the cluster relation
of rawA and rawB unchanged. -/
theorem c3_clustering_order_invariant_witness :
    sameCluster chainElig [rawA, rawB] rawA rawB =
      sameCluster chainElig [rawB, rawA] rawA rawB :=
  c3_clustering_order_invariant chainElig [rawA, rawB] [rawB, rawA]
    (List.Perm.swap rawB rawA []) rawA rawB

/-- A presence indicator is non-negative. -/
theorem presence_nonneg (o : Option String) : 0 ≤ presence o := by
  unfold presence; split <;> norm_num

/-- A presence indicator is at most one. -/
theorem presence_le_one (o : Option String) : presence o ≤ 1 := by
  unfold presence; split <;> norm_num

/-- The distinct-source bonus is non-negative. -/
theorem sourceBonus_nonneg (l : Lead) : 0 ≤ sourceBonus l := by
  unfold sourceBonus sourceBonusUnit sourceBonusCap
  refine le_min (by positivity) (by norm_num)

/-- The distinct-source bonus never exceeds its cap. -/
theorem sourceBonus_le_cap (l : Lead) : sourceBonus l ≤ sourceBonusCap :=
  min_le_right _ _

/-- The maximum achievable weight is positive. -/
theorem maxWeight_pos : (0 : ℚ) < maxWeight := by
  norm_num [maxWeight, wAddress, wPhone, wEmail, wWebsite, wSocial,
    sourceBonusCap]

/-- The confidence score is non-negative. -/
theorem confidenceScore_nonneg (l : Lead) : 0 ≤ confidenceScore l := by
  unfold confidenceScore
  have hA := presence_nonneg l.address
  have hP := presence_nonneg l.phone
  have hE := presence_nonneg l.email
  have hW := presence_nonneg l.website
  have hS : (0 : ℚ) ≤ if l.social_links.isEmpty then 0 else 1 := by
    split <;> norm_num
  have hB := sourceBonus_nonneg l
  apply div_nonneg _ maxWeight_pos.le
  simp only [wAddress, wPhone, wEmail, wWebsite, wSocial]
  linarith

/-- The confidence score is at most one. -/
theorem confidenceScore_le_one (l : Lead) : confidenceScore l ≤ 1 := by
  unfold confidenceScore
  rw [div_le_one maxWeight_pos]
  have hA := presence_le_one l.address
  have hP := presence_le_one l.phone
  have hE := presence_le_one l.email
  have hW := presence_le_one l.website
  have hS : (if l.social_links.isEmpty then (0 : ℚ) else 1) ≤ 1 := by
    split <;> norm_num
  have hB := sourceBonus_le_cap l
  simp only [maxWeight, wAddress, wPhone, wEmail, wWebsite, wSocial,
    sourceBonusCap] at *
  linarith

/-- Setting the email field can only raise the confidence score. -/
theorem confidenceScore_mono_email (l : Lead) (v : String) :
    confidenceScore l ≤ confidenceScore { l with email := some v } := by
  obtain ⟨bn, addr, web, em, ph, soc, src⟩ := l
  unfold confidenceScore
  rw [div_le_div_iff_of_pos_right maxWeight_pos]
  simp only [sourceBonus, presence, wEmail, Option.isSome_some, if_true]
  have hE : (if em.isSome then (1 : ℚ) else 0) ≤ 1 := by split <;> norm_num
  linarith

/-- Setting the phone field can only raise the confidence score. -/
theorem confidenceScore_mono_phone (l : Lead) (v : String) :
    confidenceScore l ≤ confidenceScore { l with phone := some v } := by
  obtain ⟨bn, addr, web, em, ph, soc, src⟩ := l
  unfold confidenceScore
  rw [div_le_div_iff_of_pos_right maxWeight_pos]
  simp only [sourceBonus, presence, wPhone, Option.isSome_some, if_true]
  have hP : (if ph.isSome then (1 : ℚ) else 0) ≤ 1 := by split <;> norm_num
  linarith

/-- Setting the website field can only raise the confidence score. -/
theorem confidenceScore_mono_website (l : Lead) (v : String) :
    confidenceScore l ≤ confidenceScore { l with website := some v } := by
  obtain ⟨bn, addr, web, em, ph, soc, src⟩ := l
  unfold confidenceScore
  rw [div_le_div_iff_of_pos_right maxWeight_pos]
  simp only [sourceBonus, presence, wWebsite, Option.isSome_some, if_true]
  have hW : (if web.isSome then (1 : ℚ) else 0) ≤ 1 := by split <;> norm_num
  linarith

/-- C4: the confidence score always lies in [0,1], and setting the email,
phone or website field of a Lead (all other fields unchanged) never
decreases it. -/
theorem c4_score_monotone_and_bounded :
    ∀ (l : Lead) (v : String),
      (0 ≤ confidenceScore l ∧ confidenceScore l ≤ 1) ∧
      confidenceScore l ≤ confidenceScore { l with email := some v } ∧
      confidenceScore l ≤ confidenceScore { l with phone := some v } ∧
      confidenceScore l ≤ confidenceScore { l with website := some v } :=
  fun l v =>
    ⟨⟨confidenceScore_nonneg l, confidenceScore_le_one l⟩,
      confidenceScore_mono_email l v, confidenceScore_mono_phone l v,
      confidenceScore_mono_website l v⟩

/-- Characterisation of pairwise merge-eligibility: name similarity at
least 0.85, and either both coordinates present with distance at most
150 m, or coordinates missing on either side with address similarity at
least 0.80. -/
theorem mergeEligible_iff (ns : RawLead → RawLead → ℚ)
    (gd : ℚ × ℚ → ℚ × ℚ → ℚ) (ads : RawLead → RawLead → ℚ)
    (a b : RawLead) :
    mergeEligible ns gd ads a b = true ↔
      (nameSimThreshold ≤ ns a b ∧
        ((∃ ca cb, a.coords = some ca ∧ b.coords = some cb ∧
            gd ca cb ≤ geoRadiusMeters) ∨
          ((a.coords = none ∨ b.coords = none) ∧
            addrSimThreshold ≤ ads a b))) := by
  unfold mergeEligible
  cases ha : a.coords <;> cases hb : b.coords <;> simp [ha, hb]

/-- Reachability is reflexive at any fuel. -/
theorem reachN_refl (elig : RawLead → RawLead → Bool) (l : List RawLead)
    (n : Nat) (a : RawLead) : reachN elig l n a a = true := by
  cases n <;> simp [reachN]

/-- One eligible step through a list member extends reachability. -/
theorem reachN_step (elig : RawLead → RawLead → Bool) (l : List RawLead)
    {n : Nat} {a b : RawLead} (c : RawLead) (hc : c ∈ l)
    (he : elig a c = true) (hr : reachN elig l n c b = true) :
    reachN elig l (n + 1) a b = true := by
  simp only [reachN, Bool.or_eq_true, List.any_eq_true, Bool.and_eq_true]
  exact Or.inr ⟨c, hc, he, hr⟩

/-- The chain similarity of A against B is 0.9. -/
theorem chainNameSim_AB : chainNameSim rawA rawB = 9 / 10 := by
  unfold chainNameSim
  rw [if_neg (by decide), if_pos (by decide)]

/-- The chain similarity of B against C is 0.9. -/
theorem chainNameSim_BC : chainNameSim rawB rawC = 9 / 10 := by
  unfold chainNameSim
  rw [if_neg (by decide), if_pos (by decide)]

/-- The chain similarity of A against C is 0.5. -/
theorem chainNameSim_AC : chainNameSim rawA rawC = 1 / 2 := by
  unfold chainNameSim
  rw [if_neg (by decide), if_neg (by decide)]

/-- A and B are merge-eligible under the chain metrics. -/
theorem chainElig_AB : chainElig rawA rawB = true := by
  show mergeEligible chainNameSim (constDist 0) (constSim 1) rawA rawB = true
  rw [mergeEligible_iff]
  refine ⟨?_, Or.inr ⟨Or.inl rfl, ?_⟩⟩
  · rw [chainNameSim_AB]; norm_num [nameSimThreshold]
  · norm_num [constSim, addrSimThreshold]

/-- B and C are merge-eligible under the chain metrics. -/
theorem chainElig_BC : chainElig rawB rawC = true := by
  show mergeEligible chainNameSim (constDist 0) (constSim 1) rawB rawC = true
  rw [mergeEligible_iff]
  refine ⟨?_, Or.inr ⟨Or.inl rfl, ?_⟩⟩
  · rw [chainNameSim_BC]; norm_num [nameSimThreshold]
  · norm_num [constSim, addrSimThreshold]

/-- C2 counterexample: with the chain similarity table, rawA and rawC land
in the same cluster (via rawB) although their name similarity is 0.5,
far below the 0.85 threshold — so same-cluster membership is not
equivalent to the pairwise threshold criteria. -/
theorem c2_cluster_pairwise_counterexample :
    sameCluster chainElig [rawA, rawB, rawC] rawA rawC = true ∧
      mergeEligible chainNameSim (constDist 0) (constSim 1) rawA rawC =
        false := by
  constructor
  · unfold sameCluster
    simp only [Bool.and_eq_true]
    refine ⟨⟨by decide, by decide⟩, ?_⟩
    show reachN chainElig [rawA, rawB, rawC] 3 rawA rawC = true
    exact reachN_step _ _ rawB (by decide) chainElig_AB
      (reachN_step _ _ rawC (by decide) chainElig_BC (reachN_refl _ _ _ _))
  · apply Bool.eq_false_iff.mpr
    intro h
    rw [mergeEligible_iff] at h
    obtain ⟨h1, -⟩ := h
    rw [chainNameSim_AC] at h1
    norm_num [nameSimThreshold] at h1

/-- C2 (amended): a pair of RawLeads is merge-eligible exactly when its
name similarity is at least 0.85 and either both coordinates are present
at distance at most 150 m or coordinates are missing on either side with
address similarity at least 0.80; cluster membership is the chain closure
of this pairwise relation.  At exactly 150 m with name similarity exactly
0.85 a pair is merge-eligible; at 151 m, or at name similarity 0.84, it is
not. -/
theorem c2_merge_eligibility_thresholds :
    (∀ (ns : RawLead → RawLead → ℚ) (gd : ℚ × ℚ → ℚ × ℚ → ℚ)
        (ads : RawLead → RawLead → ℚ) (a b : RawLead),
      mergeEligible ns gd ads a b = true ↔
        (nameSimThreshold ≤ ns a b ∧
          ((∃ ca cb, a.coords = some ca ∧ b.coords = some cb ∧
              gd ca cb ≤ geoRadiusMeters) ∨
            ((a.coords = none ∨ b.coords = none) ∧
              addrSimThreshold ≤ ads a b)))) ∧
    mergeEligible (constSim (85 / 100)) (constDist 150) (constSim 1)
      rawP rawQ = true ∧
    mergeEligible (constSim (85 / 100)) (constDist 151) (constSim 1)
      rawP rawQ = false ∧
    mergeEligible (constSim (84 / 100)) (constDist 150) (constSim 1)
      rawP rawQ = false := by
  refine ⟨mergeEligible_iff, ?_, ?_, ?_⟩
  · rw [mergeEligible_iff]
    exact ⟨by norm_num [constSim, nameSimThreshold],
      Or.inl ⟨(0, 0), (0, 0), rfl, rfl,
        by norm_num [constDist, geoRadiusMeters]⟩⟩
  · apply Bool.eq_false_iff.mpr
    intro hh
    rw [mergeEligible_iff] at hh
    obtain ⟨-, h2 | h2⟩ := hh
    · obtain ⟨ca, cb, -, -, hd⟩ := h2
      norm_num [constDist, geoRadiusMeters] at hd
    · rcases h2.1 with h | h <;> exact absurd h (by decide)
  · apply Bool.eq_false_iff.mpr
    intro hh
    rw [mergeEligible_iff] at hh
    obtain ⟨h1, -⟩ := hh
    norm_num [constSim, nameSimThreshold] at h1

end LeadGen
